import Mathlib

/-!
Verification of the storage/cache coordination layer of a collaborative
video-editing client.  The development shallowly embeds the TTL cache adapter,
the remote projects adapter, the storage coordinator and the media-store
cascade coordinator.  Asynchronous fallible operations are modelled as pure
functions over explicit state (the underlying key-value store, the in-memory
stores) together with `Except String` results; wall-clock time is passed
explicitly as an integer number of milliseconds; HTTP traffic is modelled by
passing the response a remote endpoint would give to each request.
-/

namespace OpenCut

/-- A cache entry as stored by the TTL cache adapter: `{data, timestamp, version}`.
Timestamps are epoch milliseconds. -/
structure CacheEntry (T : Type) where
  data : T
  timestamp : Int
  version : Int
  deriving Repr, DecidableEq

/-- Modelled from the spec: the persistent key-value store primitive
(`IndexedDBAdapter`, whose source is not among the analysed files): a durable
partition mapping string keys to structured values, with get/set/remove. -/
def KVStore (T : Type) : Type := String → Option (CacheEntry T)

def kvGet {T : Type} (s : KVStore T) (k : String) : Option (CacheEntry T) := s k

def kvSet {T : Type} (s : KVStore T) (k : String) (e : CacheEntry T) : KVStore T :=
  fun k' => if k' = k then some e else s k'

def kvRemove {T : Type} (s : KVStore T) (k : String) : KVStore T :=
  fun k' => if k' = k then none else s k'

namespace CacheAdapter

/-- `CacheAdapter.get`: read the underlying entry; `null` on absence; on
presence compare `now - timestamp` with the TTL — if stale, remove the entry
and return `null`, otherwise return the data.  Returns the result together
with the underlying store after the call. -/
def get {T : Type} (ttl now : Int) (s : KVStore T) (k : String) :
    Option T × KVStore T :=
  match kvGet s k with
  | none => (none, s)
  | some entry =>
    if now - entry.timestamp > ttl then (none, kvRemove s k)
    else (some entry.data, s)

/-- `CacheAdapter.set`: unconditionally overwrite with a fresh timestamp. -/
def set {T : Type} (now : Int) (s : KVStore T) (k : String) (data : T)
    (version : Int) : KVStore T :=
  kvSet s k { data := data, timestamp := now, version := version }

/-- `CacheAdapter.invalidate`: unconditional removal. -/
def invalidate {T : Type} (s : KVStore T) (k : String) : KVStore T :=
  kvRemove s k

/-- `CacheAdapter.getWithMetadata`: like `get` but returns the whole entry. -/
def getWithMetadata {T : Type} (ttl now : Int) (s : KVStore T) (k : String) :
    Option (CacheEntry T) × KVStore T :=
  match kvGet s k with
  | none => (none, s)
  | some entry =>
    if now - entry.timestamp > ttl then (none, kvRemove s k)
    else (some entry, s)

/-- `CacheAdapter.getRemainingTTL`: milliseconds until expiry, or `-1` on
miss or when no time remains.  Note that, unlike `get`, it never writes to
the underlying store. -/
def getRemainingTTL {T : Type} (ttl now : Int) (s : KVStore T) (k : String) :
    Int × KVStore T :=
  match kvGet s k with
  | none => (-1, s)
  | some entry =>
    let age := now - entry.timestamp
    let remaining := ttl - age
    (if remaining > 0 then remaining else -1, s)

/-- `CacheAdapter.has`: derived check via `get`. -/
def has {T : Type} (ttl now : Int) (s : KVStore T) (k : String) :
    Bool × KVStore T :=
  let (d, s') := get ttl now s k
  (d.isSome, s')

end CacheAdapter

@[simp] lemma kvGet_kvSet_self {T : Type} (s : KVStore T) (k : String)
    (e : CacheEntry T) : kvGet (kvSet s k e) k = some e := by
  simp [kvGet, kvSet]

@[simp] lemma kvGet_kvRemove_self {T : Type} (s : KVStore T) (k : String) :
    kvGet (kvRemove s k) k = none := by
  simp [kvGet, kvRemove]

lemma cacheGet_of_kvGet_none {T : Type} (ttl now : Int) (s : KVStore T)
    (k : String) (h : kvGet s k = none) :
    CacheAdapter.get ttl now s k = (none, s) := by
  simp [CacheAdapter.get, h]

lemma kvGet_of_cacheGet_none {T : Type} (ttl now : Int) (s : KVStore T)
    (k : String) (h : (CacheAdapter.get ttl now s k).1 = none) :
    kvGet (CacheAdapter.get ttl now s k).2 k = none := by
  unfold CacheAdapter.get at *
  cases hs : kvGet s k with
  | none => simp [hs]
  | some entry =>
    simp only [hs] at h ⊢
    by_cases hss : now - entry.timestamp > ttl
    · simp only [if_pos hss]
      simp
    · simp only [if_neg hss] at h
      simp at h

/-- C1: for any key of a cache adapter with TTL `ttl`, after a `set` at time
`wt` a `get` at time `t ≤ wt + ttl` returns the value written by that (most
recent) `set`; a `get` at time `t > wt + ttl` returns `null` and removes the
entry from the underlying store, so that no entry remains for the key. -/
theorem cacheAdapter_freshness (T : Type) (ttl wt t version : Int)
    (s : KVStore T) (k : String) (data : T) :
    (t ≤ wt + ttl →
      CacheAdapter.get ttl t (CacheAdapter.set wt s k data version) k =
        (some data, CacheAdapter.set wt s k data version)) ∧
    (t > wt + ttl →
      (CacheAdapter.get ttl t (CacheAdapter.set wt s k data version) k).1 = none ∧
      kvGet (CacheAdapter.get ttl t (CacheAdapter.set wt s k data version) k).2 k
        = none) := by
  constructor <;> intro h
  · have hfresh : ¬ (t - wt > ttl) := by omega
    simp [CacheAdapter.get, CacheAdapter.set, hfresh]
  · have hstale : t - wt > ttl := by omega
    simp [CacheAdapter.get, CacheAdapter.set, hstale]

/-- Witness for C1 at concrete inputs: TTL 100, write at 0, fresh read at 50,
stale read at 101. -/
theorem cacheAdapter_freshness_witness :
    (CacheAdapter.get 100 50 (CacheAdapter.set 0 (fun _ => none) "k" (42 : Nat) 1) "k" =
      (some 42, CacheAdapter.set 0 (fun _ => none) "k" (42 : Nat) 1)) ∧
    ((CacheAdapter.get 100 101 (CacheAdapter.set 0 (fun _ => none) "k" (42 : Nat) 1) "k").1 = none ∧
      kvGet (CacheAdapter.get 100 101 (CacheAdapter.set 0 (fun _ => none) "k" (42 : Nat) 1) "k").2 "k" = none) :=
  ⟨(cacheAdapter_freshness Nat 100 0 50 1 (fun _ => none) "k" 42).1 (by decide),
   (cacheAdapter_freshness Nat 100 0 101 1 (fun _ => none) "k" 42).2 (by decide)⟩

/-- A concrete store holding a single entry for key `"k"`, written at time 0. -/
def staleNatStore : KVStore Nat :=
  fun k => if k = "k" then some { data := 7, timestamp := 0, version := 1 } else none

/-- C9 counterexample: with TTL 100, at time 201 the entry of `staleNatStore`
has age exceeding the TTL; `getRemainingTTL` reports `-1` but the stale entry
is still in the underlying store afterwards — it is not removed, contrary to
the claim that `getRemainingTTL` has the same eviction-on-stale behaviour as
`get`. -/
theorem getRemainingTTL_no_eviction_cex :
    (CacheAdapter.getRemainingTTL 100 201 staleNatStore "k").1 = -1 ∧
    kvGet (CacheAdapter.getRemainingTTL 100 201 staleNatStore "k").2 "k" =
      some { data := 7, timestamp := 0, version := 1 } := by
  constructor <;> rfl

/-- C9 amended: on an entry whose age exceeds the TTL, `getWithMetadata` has
the same eviction-on-stale behaviour as `get` (it reports a miss and removes
the stale entry from the underlying store), while `getRemainingTTL` reports
`-1` but leaves the underlying store unchanged (no eviction). -/
theorem cacheAdapter_introspection_stale (T : Type) (ttl now : Int)
    (s : KVStore T) (k : String) (entry : CacheEntry T)
    (hs : kvGet s k = some entry) (hstale : now - entry.timestamp > ttl) :
    CacheAdapter.getWithMetadata ttl now s k = (none, kvRemove s k) ∧
    kvGet (CacheAdapter.getWithMetadata ttl now s k).2 k = none ∧
    CacheAdapter.getRemainingTTL ttl now s k = (-1, s) := by
  refine ⟨?_, ?_, ?_⟩ <;>
    simp only [CacheAdapter.getWithMetadata, CacheAdapter.getRemainingTTL, hs]
  · rw [if_pos hstale]
  · rw [if_pos hstale]
    simp [kvGet, kvRemove]
  · rw [if_neg (by omega)]

/-- Witness for C9's amended theorem on the concrete stale store. -/
theorem cacheAdapter_introspection_stale_witness :
    CacheAdapter.getWithMetadata 100 201 staleNatStore "k" =
      (none, kvRemove staleNatStore "k") ∧
    kvGet (CacheAdapter.getWithMetadata 100 201 staleNatStore "k").2 "k" = none ∧
    CacheAdapter.getRemainingTTL 100 201 staleNatStore "k" = (-1, staleNatStore) :=
  cacheAdapter_introspection_stale Nat 100 201 staleNatStore "k"
    { data := 7, timestamp := 0, version := 1 } (by rfl) (by decide)

/-- An HTTP response as observed by the client code: status code, status text
and parsed body. -/
structure HttpResponse (β : Type) where
  status : Nat
  statusText : String
  body : β
  deriving Repr, DecidableEq

/-- `Response.ok`: the status is in the 2xx range. -/
def HttpResponse.ok {β : Type} (r : HttpResponse β) : Bool :=
  decide (200 ≤ r.status ∧ r.status < 300)

/-- An ISO-8601 timestamp string at millisecond precision, represented by the
epoch-milliseconds value it denotes: on this range `Date.prototype.toISOString`
and the `Date` constructor are mutually inverse, so the string is modelled by
its parsed value. -/
structure ISOString where
  millis : Int
  deriving Repr, DecidableEq

def toISOString (millis : Int) : ISOString := ⟨millis⟩

def parseDate (s : ISOString) : Int := s.millis

structure Scene where
  id : String
  name : String
  isMain : Bool
  createdAt : Int
  updatedAt : Int
  deriving Repr, DecidableEq

structure SerializedScene where
  id : String
  name : String
  isMain : Bool
  createdAt : ISOString
  updatedAt : ISOString
  deriving Repr, DecidableEq

structure CanvasSize where
  width : Int
  height : Int
  deriving Repr, DecidableEq

/-- The in-memory project shape (typed dates, nested scene objects). -/
structure TProject where
  id : String
  name : String
  thumbnail : Option String
  createdAt : Int
  updatedAt : Int
  scenes : List Scene
  currentSceneId : String
  backgroundColor : String
  backgroundType : String
  blurIntensity : Int
  bookmarks : List Int
  fps : Int
  canvasSize : CanvasSize
  canvasMode : String
  deriving Repr, DecidableEq

/-- The wire shape (ISO timestamp strings, flat scene records).  `scenes` is
optional because a remote payload may omit it (`serializedProject.scenes?`). -/
structure SerializedProject where
  id : String
  name : String
  thumbnail : Option String
  createdAt : ISOString
  updatedAt : ISOString
  scenes : Option (List SerializedScene)
  currentSceneId : String
  backgroundColor : String
  backgroundType : String
  blurIntensity : Int
  bookmarks : List Int
  fps : Int
  canvasSize : CanvasSize
  canvasMode : String
  deriving Repr, DecidableEq

/-- The requests `RemoteProjectsAdapter` can issue against `/api/projects`. -/
inductive ProjectRequest
  | getReq (id : String)
  | putReq (id : String) (value : SerializedProject)
  | postReq (value : SerializedProject)
  deriving Repr, DecidableEq

/-- The responses the project endpoints would give to the adapter's possible
requests during one operation. -/
structure ProjectsRemote where
  getResponse : HttpResponse (Option SerializedProject)
  putResponse : HttpResponse Unit
  postResponse : HttpResponse Unit
  deriving Repr, DecidableEq

/-- `RemoteProjectsAdapter.get`: a 404 means not-found (`null`); any other
non-2xx status is an error; otherwise the response's `project` field. -/
def RemoteProjectsAdapter.get (resp : HttpResponse (Option SerializedProject)) :
    Except String (Option SerializedProject) :=
  if resp.status == 404 then .ok none
  else if !resp.ok then .error ("Failed to fetch project: " ++ resp.statusText)
  else .ok resp.body

/-- `RemoteProjectsAdapter.set`: first `get` the id; on a hit issue a PUT
(update) for that id, otherwise a POST (create); a non-2xx response of the
chosen write is an error.  The result is returned together with the list of
requests issued, in order. -/
def RemoteProjectsAdapter.set (remote : ProjectsRemote) (id : String)
    (value : SerializedProject) : Except String Unit × List ProjectRequest :=
  match RemoteProjectsAdapter.get remote.getResponse with
  | .error e => (.error e, [ProjectRequest.getReq id])
  | .ok (some _) =>
    if !remote.putResponse.ok then
      (.error ("Failed to update project: " ++ remote.putResponse.statusText),
        [ProjectRequest.getReq id, ProjectRequest.putReq id value])
    else (.ok (), [ProjectRequest.getReq id, ProjectRequest.putReq id value])
  | .ok none =>
    if !remote.postResponse.ok then
      (.error ("Failed to create project: " ++ remote.postResponse.statusText),
        [ProjectRequest.getReq id, ProjectRequest.postReq value])
    else (.ok (), [ProjectRequest.getReq id, ProjectRequest.postReq value])

/-- `RemoteProjectsAdapter.remove`: any non-2xx status other than 404 is an
error; a 404 (absent-on-delete) is a success. -/
def RemoteProjectsAdapter.remove (resp : HttpResponse Unit) : Except String Unit :=
  if !resp.ok && resp.status != 404 then
    .error ("Failed to delete project: " ++ resp.statusText)
  else .ok ()

/-- C6: `set(id, value)` first performs a `get`; on a hit it issues a PUT for
that id, otherwise a POST — the issued-request log always starts with the GET
and consists of the GET followed by exactly one conditional write, never a
single unconditional upsert — and a non-2xx response of the chosen write is
propagated to the caller as an error. -/
theorem remoteAdapter_set_check_then_act (remote : ProjectsRemote) (id : String)
    (value : SerializedProject) :
    ((RemoteProjectsAdapter.set remote id value).2.head? =
      some (ProjectRequest.getReq id)) ∧
    (∀ p, RemoteProjectsAdapter.get remote.getResponse = .ok (some p) →
      (RemoteProjectsAdapter.set remote id value).2 =
        [ProjectRequest.getReq id, ProjectRequest.putReq id value] ∧
      (remote.putResponse.ok = false →
        (RemoteProjectsAdapter.set remote id value).1 =
          .error ("Failed to update project: " ++ remote.putResponse.statusText))) ∧
    (RemoteProjectsAdapter.get remote.getResponse = .ok none →
      (RemoteProjectsAdapter.set remote id value).2 =
        [ProjectRequest.getReq id, ProjectRequest.postReq value] ∧
      (remote.postResponse.ok = false →
        (RemoteProjectsAdapter.set remote id value).1 =
          .error ("Failed to create project: " ++ remote.postResponse.statusText))) := by
  refine ⟨?_, ?_, ?_⟩
  · cases hget : RemoteProjectsAdapter.get remote.getResponse with
    | error e => simp [RemoteProjectsAdapter.set, hget]
    | ok existing =>
      cases existing with
      | none =>
        cases hok : remote.postResponse.ok <;>
          simp [RemoteProjectsAdapter.set, hget, hok]
      | some q =>
        cases hok : remote.putResponse.ok <;>
          simp [RemoteProjectsAdapter.set, hget, hok]
  · intro p hp
    refine ⟨?_, ?_⟩
    · cases hok : remote.putResponse.ok <;>
        simp [RemoteProjectsAdapter.set, hp, hok]
    · intro hbad
      simp [RemoteProjectsAdapter.set, hp, hbad]
  · intro hp
    refine ⟨?_, ?_⟩
    · cases hok : remote.postResponse.ok <;>
        simp [RemoteProjectsAdapter.set, hp, hok]
    · intro hbad
      simp [RemoteProjectsAdapter.set, hp, hbad]

/-- A concrete serialized project used to instantiate theorems. -/
def sampleSerializedProject : SerializedProject :=
  { id := "p1"
    name := "Demo"
    thumbnail := none
    createdAt := ⟨0⟩
    updatedAt := ⟨0⟩
    scenes := some []
    currentSceneId := ""
    backgroundColor := "#000000"
    backgroundType := "color"
    blurIntensity := 8
    bookmarks := []
    fps := 30
    canvasSize := { width := 1920, height := 1080 }
    canvasMode := "preset" }

/-- A remote on which the existence check hits and the update then fails. -/
def sampleRemoteFound : ProjectsRemote :=
  { getResponse :=
      { status := 200, statusText := "OK", body := some sampleSerializedProject },
    putResponse :=
      { status := 500, statusText := "Internal Server Error", body := () },
    postResponse := { status := 201, statusText := "Created", body := () } }

/-- A remote on which the existence check reports not-found. -/
def sampleRemoteMissing : ProjectsRemote :=
  { getResponse := { status := 404, statusText := "Not Found", body := none },
    putResponse := { status := 200, statusText := "OK", body := () },
    postResponse := { status := 201, statusText := "Created", body := () } }

/-- Witness for C6: on a found id the adapter issues GET then PUT and surfaces
the failing PUT; on a missing id it issues GET then POST. -/
theorem remoteAdapter_set_check_then_act_witness :
    ((RemoteProjectsAdapter.set sampleRemoteFound "p1" sampleSerializedProject).2 =
      [ProjectRequest.getReq "p1",
        ProjectRequest.putReq "p1" sampleSerializedProject]) ∧
    ((RemoteProjectsAdapter.set sampleRemoteFound "p1" sampleSerializedProject).1 =
      .error ("Failed to update project: " ++ "Internal Server Error")) ∧
    ((RemoteProjectsAdapter.set sampleRemoteMissing "p1" sampleSerializedProject).2 =
      [ProjectRequest.getReq "p1", ProjectRequest.postReq sampleSerializedProject]) := by
  have hfound := remoteAdapter_set_check_then_act sampleRemoteFound "p1"
    sampleSerializedProject
  have hmissing := remoteAdapter_set_check_then_act sampleRemoteMissing "p1"
    sampleSerializedProject
  have h1 := hfound.2.1 sampleSerializedProject (by rfl)
  have h2 := hmissing.2.2 (by rfl)
  exact ⟨h1.1, h1.2 (by rfl), h2.1⟩

def serializeScene (scene : Scene) : SerializedScene :=
  { id := scene.id
    name := scene.name
    isMain := scene.isMain
    createdAt := toISOString scene.createdAt
    updatedAt := toISOString scene.updatedAt }

/-- `StorageService.saveProject`'s serialization step (the write is then a
`projectsAdapter.set` of this record). -/
def StorageService.saveProjectSerialize (project : TProject) : SerializedProject :=
  { id := project.id
    name := project.name
    thumbnail := project.thumbnail
    createdAt := toISOString project.createdAt
    updatedAt := toISOString project.updatedAt
    scenes := some (project.scenes.map serializeScene)
    currentSceneId := project.currentSceneId
    backgroundColor := project.backgroundColor
    backgroundType := project.backgroundType
    blurIntensity := project.blurIntensity
    bookmarks := project.bookmarks
    fps := project.fps
    canvasSize := project.canvasSize
    canvasMode := project.canvasMode }

/-- JS `s || dflt` on strings: the empty string is the only falsy string. -/
def jsStringOr (s dflt : String) : String := if s = "" then dflt else s

def deserializeScene (scene : SerializedScene) : Scene :=
  { id := scene.id
    name := scene.name
    isMain := scene.isMain
    createdAt := parseDate scene.createdAt
    updatedAt := parseDate scene.updatedAt }

/-- `StorageService.loadProject`'s deserialization of a fetched record:
`serializedProject.scenes?.map(...) || []` and `currentSceneId || ""`. -/
def StorageService.loadProjectDeserialize (sp : SerializedProject) : TProject :=
  { id := sp.id
    name := sp.name
    thumbnail := sp.thumbnail
    createdAt := parseDate sp.createdAt
    updatedAt := parseDate sp.updatedAt
    scenes := match sp.scenes with
      | some l => l.map deserializeScene
      | none => []
    currentSceneId := jsStringOr sp.currentSceneId ""
    backgroundColor := sp.backgroundColor
    backgroundType := sp.backgroundType
    blurIntensity := sp.blurIntensity
    bookmarks := sp.bookmarks
    fps := sp.fps
    canvasSize := sp.canvasSize
    canvasMode := sp.canvasMode }

def StorageService.saveProject (remote : ProjectsRemote) (project : TProject) :
    Except String Unit × List ProjectRequest :=
  RemoteProjectsAdapter.set remote project.id
    (StorageService.saveProjectSerialize project)

def StorageService.loadProject (resp : HttpResponse (Option SerializedProject)) :
    Except String (Option TProject) :=
  match RemoteProjectsAdapter.get resp with
  | .error e => .error e
  | .ok none => .ok none
  | .ok (some sp) => .ok (some (StorageService.loadProjectDeserialize sp))

lemma deserializeScene_serializeScene (scene : Scene) :
    deserializeScene (serializeScene scene) = scene := by
  cases scene
  rfl

lemma jsStringOr_empty (s : String) : jsStringOr s "" = s := by
  unfold jsStringOr
  split <;> simp_all

lemma map_deserialize_serialize (l : List Scene) :
    l.map (deserializeScene ∘ serializeScene) = l := by
  induction l with
  | nil => rfl
  | cons a t ih => simp [deserializeScene_serializeScene, ih]

lemma deserialize_serialize (project : TProject) :
    StorageService.loadProjectDeserialize
      (StorageService.saveProjectSerialize project) = project := by
  cases project with
  | mk id name thumbnail createdAt updatedAt scenes currentSceneId bc bt bi bm f cs cm =>
    simp [StorageService.loadProjectDeserialize, StorageService.saveProjectSerialize,
      List.map_map, map_deserialize_serialize, jsStringOr_empty, parseDate,
      toISOString]

/-- C7: saving a project via `saveProject` and loading it back via
`loadProject` — with the remote adapter returning exactly the stored record —
yields a project whose scenes array, `currentSceneId` and all scalar fields
(name, thumbnail, timestamps, backgroundColor, backgroundType, blurIntensity,
bookmarks, fps, canvasSize, canvasMode) equal the saved values. -/
theorem project_save_load_roundtrip (project : TProject) :
    StorageService.loadProject
      { status := 200, statusText := "OK",
        body := some (StorageService.saveProjectSerialize project) } =
      .ok (some project) := by
  simp [StorageService.loadProject, RemoteProjectsAdapter.get, HttpResponse.ok,
    deserialize_serialize]

/-- A media metadata record as returned by the media API and as cached. -/
structure MediaFileData where
  id : String
  name : String
  url : String
  deriving Repr, DecidableEq

/-- The client-facing media object materialized from a metadata record; the
binary payload itself is never fetched into this layer, only the URL. -/
structure MediaFile where
  id : String
  name : String
  url : String
  deriving Repr, DecidableEq

def mediaFileOfData (metadata : MediaFileData) : MediaFile :=
  { id := metadata.id, name := metadata.name, url := metadata.url }

/-- Modelled from the spec: the kinds of timeline elements; at least the
`media` kind carries a `mediaId` back-reference (the timeline type module is
not among the analysed sources). -/
inductive ElementType
  | media
  | text
  deriving Repr, DecidableEq

/-- Modelled from the spec: an element ordered inside a timeline track. -/
structure TimelineElement where
  id : String
  type : ElementType
  mediaId : Option String
  deriving Repr, DecidableEq

/-- Modelled from the spec: a timeline track, an ordered collection of
elements. -/
structure TimelineTrack where
  id : String
  elements : List TimelineElement
  deriving Repr, DecidableEq

/-- TTL of the media metadata cache (5 minutes). -/
def StorageService.mediaTTL : Int := 300000

/-- TTL of the timelines cache (1 minute, actively edited). -/
def StorageService.timelinesTTL : Int := 60000

/-- `StorageService.loadAllMediaFiles`: cache-aside read of a project's media
list.  On a cache miss the remote list endpoint is consulted (`remote` is the
response it would give); a non-2xx response is an error; `data.media || []` is
written to the cache only when non-empty.  Returns the result, the media cache
store afterwards, and whether the remote was consulted. -/
def StorageService.loadAllMediaFiles (now : Int)
    (remote : HttpResponse (Option (List MediaFileData)))
    (mediaCache : KVStore (List MediaFileData)) (projectId : String) :
    Except String (List MediaFile) × KVStore (List MediaFileData) × Bool :=
  match (CacheAdapter.get StorageService.mediaTTL now mediaCache projectId).1 with
  | some cachedMetadata =>
    (.ok (cachedMetadata.map mediaFileOfData),
      (CacheAdapter.get StorageService.mediaTTL now mediaCache projectId).2, false)
  | none =>
    if !remote.ok then
      (.error ("Failed to load media: " ++ remote.statusText),
        (CacheAdapter.get StorageService.mediaTTL now mediaCache projectId).2, true)
    else
      let cachedMetadata := remote.body.getD []
      (.ok (cachedMetadata.map mediaFileOfData),
        if cachedMetadata.length > 0 then
          CacheAdapter.set now
            (CacheAdapter.get StorageService.mediaTTL now mediaCache projectId).2
            projectId cachedMetadata 1
        else (CacheAdapter.get StorageService.mediaTTL now mediaCache projectId).2,
        true)

/-- The per-item failure test of the delete endpoints:
`!response.ok && response.status !== 404`. -/
def deleteFails (r : HttpResponse Unit) : Bool := !r.ok && r.status != 404

/-- `StorageService.deleteMediaFile`: remote delete with 404 tolerated as
success, then invalidation of the project's cached media list; a
non-tolerated failure throws before the invalidation is reached. -/
def StorageService.deleteMediaFile (remote : HttpResponse Unit)
    (mediaCache : KVStore (List MediaFileData)) (projectId : String)
    (id : String) : Except String Unit × KVStore (List MediaFileData) :=
  if deleteFails remote then
    (.error ("Failed to delete media: " ++ remote.statusText), mediaCache)
  else (.ok (), CacheAdapter.invalidate mediaCache projectId)

/-- `StorageService.loadTimeline`: cache-aside read of a scene's tracks.  On a
cache miss, a 404 response means the timeline does not exist yet (`null`,
not an error); any other non-2xx response is an error; `data.tracks || []` is
written to the cache only when non-empty. -/
def StorageService.loadTimeline (now : Int)
    (remote : HttpResponse (Option (List TimelineTrack)))
    (timelinesCache : KVStore (List TimelineTrack)) (sceneId : String) :
    Except String (Option (List TimelineTrack)) × KVStore (List TimelineTrack) × Bool :=
  match (CacheAdapter.get StorageService.timelinesTTL now timelinesCache sceneId).1 with
  | some cachedTracks =>
    (.ok (some cachedTracks),
      (CacheAdapter.get StorageService.timelinesTTL now timelinesCache sceneId).2,
      false)
  | none =>
    if remote.status == 404 then
      (.ok none,
        (CacheAdapter.get StorageService.timelinesTTL now timelinesCache sceneId).2,
        true)
    else if !remote.ok then
      (.error ("Failed to load timeline: " ++ remote.statusText),
        (CacheAdapter.get StorageService.timelinesTTL now timelinesCache sceneId).2,
        true)
    else
      let cachedTracks := remote.body.getD []
      (.ok (some cachedTracks),
        if cachedTracks.length > 0 then
          CacheAdapter.set now
            (CacheAdapter.get StorageService.timelinesTTL now timelinesCache sceneId).2
            sceneId cachedTracks 1
        else (CacheAdapter.get StorageService.timelinesTTL now timelinesCache sceneId).2,
        true)

lemma loadAllMediaFiles_fetches (now : Int)
    (remote : HttpResponse (Option (List MediaFileData)))
    (s : KVStore (List MediaFileData)) (projectId : String)
    (h : kvGet s projectId = none) :
    (StorageService.loadAllMediaFiles now remote s projectId).2.2 = true := by
  unfold StorageService.loadAllMediaFiles
  rw [cacheGet_of_kvGet_none StorageService.mediaTTL now s projectId h]
  cases hok : remote.ok <;> simp [hok]

lemma loadTimeline_fetches (now : Int)
    (remote : HttpResponse (Option (List TimelineTrack)))
    (s : KVStore (List TimelineTrack)) (sceneId : String)
    (h : kvGet s sceneId = none) :
    (StorageService.loadTimeline now remote s sceneId).2.2 = true := by
  unfold StorageService.loadTimeline
  rw [cacheGet_of_kvGet_none StorageService.timelinesTTL now s sceneId h]
  by_cases h404 : remote.status == 404
  · simp [h404]
  · cases hok : remote.ok <;> simp [h404, hok]

/-- C3: on the cache-miss path a successful remote fetch that yields an empty
media list (for `loadAllMediaFiles`), an empty track list or a 404 "no
timeline yet" (for `loadTimeline`) writes no cache entry, so the next read of
the same key misses the cache and consults the remote again; a successful
non-empty result is written into the cache. -/
theorem empty_result_not_cached (now now2 : Int)
    (remote remote2 : HttpResponse (Option (List MediaFileData)))
    (mediaCache : KVStore (List MediaFileData)) (projectId : String)
    (tnow tnow2 : Int)
    (tremote tremote2 : HttpResponse (Option (List TimelineTrack)))
    (timelinesCache : KVStore (List TimelineTrack)) (sceneId : String) :
    ((CacheAdapter.get StorageService.mediaTTL now mediaCache projectId).1 = none →
      remote.ok = true → remote.body.getD [] = [] →
      (StorageService.loadAllMediaFiles now remote mediaCache projectId).1 = .ok [] ∧
      kvGet (StorageService.loadAllMediaFiles now remote mediaCache projectId).2.1
        projectId = none ∧
      (StorageService.loadAllMediaFiles now2 remote2
        (StorageService.loadAllMediaFiles now remote mediaCache projectId).2.1
        projectId).2.2 = true) ∧
    (∀ l, (CacheAdapter.get StorageService.mediaTTL now mediaCache projectId).1 = none →
      remote.ok = true → remote.body.getD [] = l → l ≠ [] →
      kvGet (StorageService.loadAllMediaFiles now remote mediaCache projectId).2.1
        projectId = some { data := l, timestamp := now, version := 1 }) ∧
    ((CacheAdapter.get StorageService.timelinesTTL tnow timelinesCache sceneId).1 = none →
      tremote.status ≠ 404 → tremote.ok = true → tremote.body.getD [] = [] →
      (StorageService.loadTimeline tnow tremote timelinesCache sceneId).1 = .ok (some []) ∧
      kvGet (StorageService.loadTimeline tnow tremote timelinesCache sceneId).2.1
        sceneId = none ∧
      (StorageService.loadTimeline tnow2 tremote2
        (StorageService.loadTimeline tnow tremote timelinesCache sceneId).2.1
        sceneId).2.2 = true) ∧
    ((CacheAdapter.get StorageService.timelinesTTL tnow timelinesCache sceneId).1 = none →
      tremote.status = 404 →
      kvGet (StorageService.loadTimeline tnow tremote timelinesCache sceneId).2.1
        sceneId = none ∧
      (StorageService.loadTimeline tnow2 tremote2
        (StorageService.loadTimeline tnow tremote timelinesCache sceneId).2.1
        sceneId).2.2 = true) ∧
    (∀ l, (CacheAdapter.get StorageService.timelinesTTL tnow timelinesCache sceneId).1 = none →
      tremote.status ≠ 404 → tremote.ok = true → tremote.body.getD [] = l → l ≠ [] →
      kvGet (StorageService.loadTimeline tnow tremote timelinesCache sceneId).2.1
        sceneId = some { data := l, timestamp := tnow, version := 1 }) := by
  refine ⟨?_, ?_, ?_, ?_, ?_⟩
  · intro hmiss hok hempty
    have hstore : kvGet (StorageService.loadAllMediaFiles now remote mediaCache
        projectId).2.1 projectId = none := by
      unfold StorageService.loadAllMediaFiles
      simp only [hmiss, hok, hempty]
      simpa using kvGet_of_cacheGet_none StorageService.mediaTTL now mediaCache
        projectId hmiss
    refine ⟨?_, hstore, loadAllMediaFiles_fetches now2 remote2 _ projectId hstore⟩
    unfold StorageService.loadAllMediaFiles
    simp only [hmiss, hok, hempty]
    simp
  · intro l hmiss hok hbody hne
    unfold StorageService.loadAllMediaFiles
    simp only [hmiss, hok, hbody]
    have hlen : l.length > 0 := List.length_pos.mpr hne
    simp [hlen, CacheAdapter.set]
  · intro hmiss h404 hok hempty
    have h404' : (tremote.status == 404) = false := by simp [h404]
    have hstore : kvGet (StorageService.loadTimeline tnow tremote timelinesCache
        sceneId).2.1 sceneId = none := by
      unfold StorageService.loadTimeline
      simp only [hmiss, h404', hok, hempty]
      simpa using kvGet_of_cacheGet_none StorageService.timelinesTTL tnow
        timelinesCache sceneId hmiss
    refine ⟨?_, hstore, loadTimeline_fetches tnow2 tremote2 _ sceneId hstore⟩
    unfold StorageService.loadTimeline
    simp only [hmiss, h404', hok, hempty]
    simp
  · intro hmiss h404
    have h404' : (tremote.status == 404) = true := by simp [h404]
    have hstore : kvGet (StorageService.loadTimeline tnow tremote timelinesCache
        sceneId).2.1 sceneId = none := by
      unfold StorageService.loadTimeline
      simp only [hmiss, h404']
      simpa using kvGet_of_cacheGet_none StorageService.timelinesTTL tnow
        timelinesCache sceneId hmiss
    exact ⟨hstore, loadTimeline_fetches tnow2 tremote2 _ sceneId hstore⟩
  · intro l hmiss h404 hok hbody hne
    have h404' : (tremote.status == 404) = false := by simp [h404]
    unfold StorageService.loadTimeline
    simp only [hmiss, h404', hok, hbody]
    have hlen : l.length > 0 := List.length_pos.mpr hne
    simp [hlen, CacheAdapter.set]

/-- A concrete media metadata record. -/
def sampleMediaData : MediaFileData := { id := "m1", name := "clip", url := "u1" }

/-- A concrete timeline track with one media element referencing `"m1"`. -/
def sampleTrack : TimelineTrack :=
  { id := "t1",
    elements := [{ id := "e1", type := ElementType.media, mediaId := some "m1" }] }

/-- Witness for C3 at concrete inputs: empty stores, empty and non-empty
successful responses, and a 404 timeline response. -/
theorem empty_result_not_cached_witness :
    ((StorageService.loadAllMediaFiles 0
        { status := 200, statusText := "OK", body := some [] }
        (fun _ => none) "p").1 = .ok [] ∧
      kvGet (StorageService.loadAllMediaFiles 0
        { status := 200, statusText := "OK", body := some [] }
        (fun _ => none) "p").2.1 "p" = none ∧
      (StorageService.loadAllMediaFiles 10
        { status := 200, statusText := "OK", body := some [] }
        (StorageService.loadAllMediaFiles 0
          { status := 200, statusText := "OK", body := some [] }
          (fun _ => none) "p").2.1 "p").2.2 = true) ∧
    (kvGet (StorageService.loadAllMediaFiles 0
        { status := 200, statusText := "OK", body := some [sampleMediaData] }
        (fun _ => none) "p").2.1 "p" =
      some { data := [sampleMediaData], timestamp := 0, version := 1 }) ∧
    ((StorageService.loadTimeline 0
        { status := 200, statusText := "OK", body := some [] }
        (fun _ => none) "s").1 = .ok (some []) ∧
      kvGet (StorageService.loadTimeline 0
        { status := 200, statusText := "OK", body := some [] }
        (fun _ => none) "s").2.1 "s" = none) ∧
    (kvGet (StorageService.loadTimeline 0
        { status := 404, statusText := "Not Found", body := none }
        (fun _ => none) "s").2.1 "s" = none) ∧
    (kvGet (StorageService.loadTimeline 0
        { status := 200, statusText := "OK", body := some [sampleTrack] }
        (fun _ => none) "s").2.1 "s" =
      some { data := [sampleTrack], timestamp := 0, version := 1 }) := by
  have h := empty_result_not_cached 0 10
    { status := 200, statusText := "OK", body := some [] }
    { status := 200, statusText := "OK", body := some [] }
    (fun _ => none) "p" 0 10
    { status := 200, statusText := "OK", body := some [] }
    { status := 200, statusText := "OK", body := some [] }
    (fun _ => none) "s"
  have hm := empty_result_not_cached 0 10
    { status := 200, statusText := "OK", body := some [sampleMediaData] }
    { status := 200, statusText := "OK", body := some [] }
    (fun _ => none) "p" 0 10
    { status := 200, statusText := "OK", body := some [sampleTrack] }
    { status := 200, statusText := "OK", body := some [] }
    (fun _ => none) "s"
  have h404 := empty_result_not_cached 0 10
    { status := 200, statusText := "OK", body := some [] }
    { status := 200, statusText := "OK", body := some [] }
    (fun _ => none) "p" 0 10
    { status := 404, statusText := "Not Found", body := none }
    { status := 200, statusText := "OK", body := some [] }
    (fun _ => none) "s"
  refine ⟨h.1 rfl rfl rfl, ?_, ?_, ?_, ?_⟩
  · exact hm.2.1 [sampleMediaData] rfl rfl rfl (by simp)
  · have := h.2.2.1 rfl (by decide) rfl rfl
    exact ⟨this.1, this.2.1⟩
  · exact (h404.2.2.2.1 rfl rfl).1
  · exact hm.2.2.2.2 [sampleTrack] rfl (by decide) rfl rfl (by simp)

/-- The `DELETE /api/media/:id` route handler (second half of
`api/media/upload/route.ts`): verify the media row exists, answering 404
"Media not found" when it does not, otherwise delete the row and answer
success.  The media table is modelled as the list of its rows; the
select-where-eq becomes `find?` and the delete-where-eq becomes `filter`. -/
def mediaDeleteRoute (table : List MediaFileData) (id : String) :
    HttpResponse Unit × List MediaFileData :=
  match table.find? (fun row => row.id == id) with
  | none => ({ status := 404, statusText := "Not Found", body := () }, table)
  | some _ =>
    ({ status := 200, statusText := "OK", body := () },
      table.filter (fun row => row.id != id))

/-- Modelled from the spec: the remote `DELETE /projects/{id}` endpoint (its
route handler is not among the analysed sources).  Per the interface contract
table, deleting a present id removes it and answers success; an absent id
answers 404. -/
def projectsServerDelete (present : List String) (id : String) :
    HttpResponse Unit × List String :=
  if id ∈ present then
    ({ status := 200, statusText := "OK", body := () },
      present.filter (fun x => x != id))
  else ({ status := 404, statusText := "Not Found", body := () }, present)

/-- C8: deleting a non-existent project id via `remove`, or a non-existent
media id via `deleteMediaFile` against the media DELETE route, does not raise
an error because the 404 response is tolerated; deleting the same id twice in
sequence succeeds both times; and any non-2xx status other than 404 is raised
as an error by both operations. -/
theorem idempotent_delete (present : List String) (id : String)
    (table : List MediaFileData)
    (mediaCache : KVStore (List MediaFileData)) (projectId mid : String)
    (resp : HttpResponse Unit) (hbad : resp.ok = false)
    (h404 : resp.status ≠ 404) :
    RemoteProjectsAdapter.remove (projectsServerDelete present id).1 = .ok () ∧
    RemoteProjectsAdapter.remove
      (projectsServerDelete (projectsServerDelete present id).2 id).1 = .ok () ∧
    (StorageService.deleteMediaFile (mediaDeleteRoute table mid).1
      mediaCache projectId mid).1 = .ok () ∧
    (StorageService.deleteMediaFile
      (mediaDeleteRoute (mediaDeleteRoute table mid).2 mid).1
      mediaCache projectId mid).1 = .ok () ∧
    RemoteProjectsAdapter.remove resp =
      .error ("Failed to delete project: " ++ resp.statusText) ∧
    (StorageService.deleteMediaFile resp mediaCache projectId mid).1 =
      .error ("Failed to delete media: " ++ resp.statusText) := by
  have hok : ∀ (l : List String) (x : String),
      RemoteProjectsAdapter.remove (projectsServerDelete l x).1 = .ok () := by
    intro l x
    unfold projectsServerDelete
    split <;> rfl
  have hokm : ∀ (t : List MediaFileData),
      (StorageService.deleteMediaFile (mediaDeleteRoute t mid).1 mediaCache
        projectId mid).1 = .ok () := by
    intro t
    unfold mediaDeleteRoute
    cases hf : t.find? (fun row => row.id == mid) <;> rfl
  have hbad' : (!resp.ok) = true := by simp [hbad]
  have h404' : (resp.status != 404) = true := by simp [h404]
  refine ⟨hok present id, hok _ id, hokm table, hokm _, ?_, ?_⟩
  · unfold RemoteProjectsAdapter.remove
    simp [hbad', h404']
  · unfold StorageService.deleteMediaFile deleteFails
    simp [hbad', h404']

/-- Witness for C8: deleting the present project id `"a"` twice succeeds both
times; deleting the present media id `"m1"` twice through the media DELETE
route succeeds both times; a 500 response is surfaced as an error by both. -/
theorem idempotent_delete_witness :
    RemoteProjectsAdapter.remove (projectsServerDelete ["a"] "a").1 = .ok () ∧
    RemoteProjectsAdapter.remove
      (projectsServerDelete (projectsServerDelete ["a"] "a").2 "a").1 = .ok () ∧
    (StorageService.deleteMediaFile (mediaDeleteRoute [sampleMediaData] "m1").1
      (fun _ => none) "p" "m1").1 = .ok () ∧
    (StorageService.deleteMediaFile
      (mediaDeleteRoute (mediaDeleteRoute [sampleMediaData] "m1").2 "m1").1
      (fun _ => none) "p" "m1").1 = .ok () ∧
    RemoteProjectsAdapter.remove
      { status := 500, statusText := "Internal Server Error", body := () } =
      .error ("Failed to delete project: " ++ "Internal Server Error") ∧
    (StorageService.deleteMediaFile
      { status := 500, statusText := "Internal Server Error", body := () }
      (fun _ => none) "p" "m1").1 =
      .error ("Failed to delete media: " ++ "Internal Server Error") :=
  idempotent_delete ["a"] "a" [sampleMediaData] (fun _ => none) "p" "m1"
    { status := 500, statusText := "Internal Server Error", body := () }
    (by rfl) (by decide)

/-- C10: `loadTimeline` returns `null` exactly when the cache misses and the
remote answers 404; on a cache miss a successful remote response whose track
list is empty yields the empty list (not `null`), so callers can distinguish
"no timeline exists yet" from "a timeline with zero tracks". -/
theorem loadTimeline_null_iff_404 (now : Int)
    (remote : HttpResponse (Option (List TimelineTrack)))
    (timelinesCache : KVStore (List TimelineTrack)) (sceneId : String) :
    ((StorageService.loadTimeline now remote timelinesCache sceneId).1 = .ok none ↔
      ((CacheAdapter.get StorageService.timelinesTTL now timelinesCache
          sceneId).1 = none ∧ remote.status = 404)) ∧
    ((CacheAdapter.get StorageService.timelinesTTL now timelinesCache
        sceneId).1 = none →
      remote.status ≠ 404 → remote.ok = true → remote.body = some [] →
      (StorageService.loadTimeline now remote timelinesCache sceneId).1 =
        .ok (some [])) := by
  constructor
  · cases hc : (CacheAdapter.get StorageService.timelinesTTL now timelinesCache
        sceneId).1 with
    | some tracks =>
      unfold StorageService.loadTimeline
      simp [hc]
    | none =>
      unfold StorageService.loadTimeline
      by_cases h404 : remote.status = 404
      · simp [hc, h404]
      · have h404' : (remote.status == 404) = false := by simp [h404]
        cases hok : remote.ok <;> simp [hc, h404, h404', hok]
  · intro hc h404 hok hbody
    have h404' : (remote.status == 404) = false := by simp [h404]
    unfold StorageService.loadTimeline
    simp [hc, h404', hok, hbody]

/-- Witness for C10: a cache miss with a 404 yields `null`; a success with an
empty track list yields the empty list. -/
theorem loadTimeline_null_iff_404_witness :
    ((StorageService.loadTimeline 0
        { status := 404, statusText := "Not Found", body := none }
        (fun _ => none) "s").1 = .ok none) ∧
    ((StorageService.loadTimeline 0
        { status := 200, statusText := "OK", body := some [] }
        (fun _ => none) "s").1 = .ok (some [])) := by
  have h1 := loadTimeline_null_iff_404 0
    { status := 404, statusText := "Not Found", body := none }
    (fun _ => none) "s"
  have h2 := loadTimeline_null_iff_404 0
    { status := 200, statusText := "OK", body := some [] }
    (fun _ => none) "s"
  exact ⟨h1.1.mpr ⟨rfl, rfl⟩, h2.2 rfl (by decide) rfl rfl⟩

/-- One step of `deleteProjectMedia`'s fan-out: issue the remote deletion of
one media item via `deleteMediaFile` (recording the issued call id), thread
the cache store, and collect any thrown error. -/
def deleteMediaStep (deleteRemote : String → HttpResponse Unit)
    (projectId : String)
    (acc : KVStore (List MediaFileData) × List String × List String)
    (m : MediaFile) : KVStore (List MediaFileData) × List String × List String :=
  ((StorageService.deleteMediaFile (deleteRemote m.id) acc.1 projectId m.id).2,
    acc.2.1 ++ [m.id],
    acc.2.2 ++
      (match (StorageService.deleteMediaFile (deleteRemote m.id) acc.1 projectId
          m.id).1 with
        | .error e => [e]
        | .ok _ => []))

/-- `StorageService.deleteProjectMedia`: load the full media list, delete each
item individually in a `Promise.all` fan-out — every deletion is issued, and a
rejection becomes the caller's error (the first in item order in this
sequential model) — then invalidate the cached media list.  The final
invalidation is reached only when the fan-out as a whole succeeds, because an
exception from `await Promise.all` propagates before it.  Returns the result,
the media cache store afterwards, and the ids whose remote deletion was
issued. -/
def StorageService.deleteProjectMedia (now : Int)
    (listRemote : HttpResponse (Option (List MediaFileData)))
    (deleteRemote : String → HttpResponse Unit)
    (mediaCache : KVStore (List MediaFileData)) (projectId : String) :
    Except String Unit × KVStore (List MediaFileData) × List String :=
  match StorageService.loadAllMediaFiles now listRemote mediaCache projectId with
  | (.error e, s1, _) => (.error e, s1, [])
  | (.ok allMedia, s1, _) =>
    match (allMedia.foldl (deleteMediaStep deleteRemote projectId)
        (s1, [], [])).2.2 with
    | [] =>
      (.ok (),
        CacheAdapter.invalidate
          (allMedia.foldl (deleteMediaStep deleteRemote projectId) (s1, [], [])).1
          projectId,
        (allMedia.foldl (deleteMediaStep deleteRemote projectId) (s1, [], [])).2.1)
    | e :: _ =>
      (.error e,
        (allMedia.foldl (deleteMediaStep deleteRemote projectId) (s1, [], [])).1,
        (allMedia.foldl (deleteMediaStep deleteRemote projectId) (s1, [], [])).2.1)

/-- The error messages the fan-out of `deleteProjectMedia` collects, in item
order. -/
def deleteErrors (deleteRemote : String → HttpResponse Unit)
    (items : List MediaFile) : List String :=
  items.filterMap (fun m =>
    if deleteFails (deleteRemote m.id) then
      some ("Failed to delete media: " ++ (deleteRemote m.id).statusText)
    else none)

lemma deleteMediaStep_fail {deleteRemote : String → HttpResponse Unit}
    {projectId : String} {s : KVStore (List MediaFileData)}
    {calls errs : List String} {a : MediaFile}
    (hf : deleteFails (deleteRemote a.id) = true) :
    deleteMediaStep deleteRemote projectId (s, calls, errs) a =
      (s, calls ++ [a.id],
        errs ++ ["Failed to delete media: " ++ (deleteRemote a.id).statusText]) := by
  simp [deleteMediaStep, StorageService.deleteMediaFile, hf]

lemma deleteMediaStep_ok {deleteRemote : String → HttpResponse Unit}
    {projectId : String} {s : KVStore (List MediaFileData)}
    {calls errs : List String} {a : MediaFile}
    (hf : deleteFails (deleteRemote a.id) = false) :
    deleteMediaStep deleteRemote projectId (s, calls, errs) a =
      (CacheAdapter.invalidate s projectId, calls ++ [a.id], errs) := by
  simp [deleteMediaStep, StorageService.deleteMediaFile, hf]

lemma deleteMediaStep_foldl_calls (deleteRemote : String → HttpResponse Unit)
    (projectId : String) (items : List MediaFile)
    (s : KVStore (List MediaFileData)) (calls errs : List String) :
    (items.foldl (deleteMediaStep deleteRemote projectId) (s, calls, errs)).2.1 =
      calls ++ items.map (fun m => m.id) := by
  induction items generalizing s calls errs with
  | nil => simp
  | cons a t ih =>
    rw [List.foldl_cons]
    by_cases hf : deleteFails (deleteRemote a.id) = true
    · rw [deleteMediaStep_fail hf, ih]
      simp
    · rw [deleteMediaStep_ok (by simp_all), ih]
      simp

lemma deleteMediaStep_foldl_errs (deleteRemote : String → HttpResponse Unit)
    (projectId : String) (items : List MediaFile)
    (s : KVStore (List MediaFileData)) (calls errs : List String) :
    (items.foldl (deleteMediaStep deleteRemote projectId) (s, calls, errs)).2.2 =
      errs ++ deleteErrors deleteRemote items := by
  induction items generalizing s calls errs with
  | nil => simp [deleteErrors]
  | cons a t ih =>
    rw [List.foldl_cons]
    by_cases hf : deleteFails (deleteRemote a.id) = true
    · rw [deleteMediaStep_fail hf, ih]
      simp [deleteErrors, List.filterMap_cons, hf]
    · have hf' : deleteFails (deleteRemote a.id) = false := by simp_all
      rw [deleteMediaStep_ok hf', ih]
      simp [deleteErrors, List.filterMap_cons, hf']

lemma deleteMediaStep_foldl_store_all_fail
    (deleteRemote : String → HttpResponse Unit) (projectId : String)
    (items : List MediaFile) (s : KVStore (List MediaFileData))
    (calls errs : List String)
    (hall : ∀ m ∈ items, deleteFails (deleteRemote m.id) = true) :
    (items.foldl (deleteMediaStep deleteRemote projectId) (s, calls, errs)).1 =
      s := by
  induction items generalizing s calls errs with
  | nil => rfl
  | cons a t ih =>
    rw [List.foldl_cons, deleteMediaStep_fail (hall a (by simp))]
    exact ih _ _ _ (fun m hm => hall m (by simp [hm]))

/-- A remote list response holding one media item. -/
def cexListRemote : HttpResponse (Option (List MediaFileData)) :=
  { status := 200, statusText := "OK", body := some [sampleMediaData] }

/-- A remote on which every media deletion answers 500. -/
def cexDeleteRemote : String → HttpResponse Unit :=
  fun _ => { status := 500, statusText := "Internal Server Error", body := () }

/-- A remote on which every media deletion answers 200. -/
def cexDeleteRemoteOk : String → HttpResponse Unit :=
  fun _ => { status := 200, statusText := "OK", body := () }

/-- C4 counterexample: with a single media item whose remote deletion answers
500, `deleteProjectMedia` surfaces the per-item error but the project's cached
media list — populated by the initial load — is NOT invalidated at the end:
its entry is still present afterwards, contradicting "the cache is invalidated
once at the end regardless of the per-item outcomes". -/
theorem deleteProjectMedia_no_final_invalidate_cex :
    (StorageService.deleteProjectMedia 0 cexListRemote cexDeleteRemote
      (fun _ => none) "p").1 =
      .error ("Failed to delete media: " ++ "Internal Server Error") ∧
    kvGet (StorageService.deleteProjectMedia 0 cexListRemote cexDeleteRemote
      (fun _ => none) "p").2.1 "p" =
      some { data := [sampleMediaData], timestamp := 0, version := 1 } := by
  constructor <;> rfl

/-- C4 amended: when one or more of the fanned-out per-item deletions of
`deleteProjectMedia` fail, the other deletions still proceed (every item's
remote deletion is issued, with no rollback) and the caller sees exactly one
of the per-item errors (the first in item order in this sequential model of
`Promise.all`); the final cache invalidation however is reached only when
every per-item deletion succeeds — on failure it is skipped, so when every
deletion fails the cached media list is left exactly as the initial load left
it. -/
theorem deleteProjectMedia_failure (now : Int)
    (listRemote : HttpResponse (Option (List MediaFileData)))
    (deleteRemote : String → HttpResponse Unit)
    (mediaCache : KVStore (List MediaFileData)) (projectId : String)
    (items : List MediaFile) (s1 : KVStore (List MediaFileData)) (b : Bool)
    (hload : StorageService.loadAllMediaFiles now listRemote mediaCache projectId =
      (.ok items, s1, b)) :
    (StorageService.deleteProjectMedia now listRemote deleteRemote mediaCache
      projectId).2.2 = items.map (fun m => m.id) ∧
    (deleteErrors deleteRemote items = [] →
      (StorageService.deleteProjectMedia now listRemote deleteRemote mediaCache
        projectId).1 = .ok () ∧
      kvGet (StorageService.deleteProjectMedia now listRemote deleteRemote
        mediaCache projectId).2.1 projectId = none) ∧
    (∀ e rest, deleteErrors deleteRemote items = e :: rest →
      (StorageService.deleteProjectMedia now listRemote deleteRemote mediaCache
        projectId).1 = .error e) ∧
    ((∀ m ∈ items, deleteFails (deleteRemote m.id) = true) → items ≠ [] →
      (StorageService.deleteProjectMedia now listRemote deleteRemote mediaCache
        projectId).2.1 = s1) := by
  have hcalls := deleteMediaStep_foldl_calls deleteRemote projectId items s1 [] []
  have herrs := deleteMediaStep_foldl_errs deleteRemote projectId items s1 [] []
  rw [List.nil_append] at hcalls herrs
  unfold StorageService.deleteProjectMedia
  rw [hload]
  refine ⟨?_, ?_, ?_, ?_⟩
  · cases hE : deleteErrors deleteRemote items with
    | nil => simp only [herrs, hE]; exact hcalls
    | cons e rest => simp only [herrs, hE]; exact hcalls
  · intro hE
    simp only [herrs, hE]
    exact ⟨trivial, by simp [CacheAdapter.invalidate]⟩
  · intro e rest hE
    simp only [herrs, hE]
  · intro hall hne
    have hEne : deleteErrors deleteRemote items ≠ [] := by
      cases items with
      | nil => simp at hne
      | cons a t =>
        simp [deleteErrors, List.filterMap_cons, hall a (by simp)]
    cases hE : deleteErrors deleteRemote items with
    | nil => exact absurd hE hEne
    | cons e rest =>
      simp only [herrs, hE]
      exact deleteMediaStep_foldl_store_all_fail deleteRemote projectId items s1
        [] [] hall

/-- Witness for C4's amended theorem at concrete inputs: one item whose
deletion fails with 500 (calls issued, first error surfaced, cache left as
after the load) and one whose deletion succeeds (ok, cache invalidated). -/
theorem deleteProjectMedia_failure_witness :
    (StorageService.deleteProjectMedia 0 cexListRemote cexDeleteRemote
      (fun _ => none) "p").2.2 = ["m1"] ∧
    (StorageService.deleteProjectMedia 0 cexListRemote cexDeleteRemote
      (fun _ => none) "p").1 =
      .error ("Failed to delete media: " ++ "Internal Server Error") ∧
    (StorageService.deleteProjectMedia 0 cexListRemote cexDeleteRemote
      (fun _ => none) "p").2.1 =
      CacheAdapter.set 0 (fun _ => none) "p" [sampleMediaData] 1 ∧
    (StorageService.deleteProjectMedia 0 cexListRemote cexDeleteRemoteOk
      (fun _ => none) "p").1 = .ok () ∧
    kvGet (StorageService.deleteProjectMedia 0 cexListRemote cexDeleteRemoteOk
      (fun _ => none) "p").2.1 "p" = none := by
  have hfail := deleteProjectMedia_failure 0 cexListRemote cexDeleteRemote
    (fun _ => none) "p" [mediaFileOfData sampleMediaData]
    (CacheAdapter.set 0 (fun _ => none) "p" [sampleMediaData] 1) true rfl
  have hgood := deleteProjectMedia_failure 0 cexListRemote cexDeleteRemoteOk
    (fun _ => none) "p" [mediaFileOfData sampleMediaData]
    (CacheAdapter.set 0 (fun _ => none) "p" [sampleMediaData] 1) true rfl
  refine ⟨hfail.1, ?_, ?_, (hgood.2.1 rfl).1, (hgood.2.1 rfl).2⟩
  · exact hfail.2.2.1 ("Failed to delete media: " ++ "Internal Server Error") []
      rfl
  · exact hfail.2.2.2 (fun m _ => rfl) (by simp)

/-- The in-memory timeline state the cascade coordinator reads: the tracks
and the current multi-selection of `(trackId, elementId)` pairs. -/
structure TimelineState where
  tracks : List TimelineTrack
  selectedElements : List (String × String)
  deriving Repr, DecidableEq

/-- Modelled from the spec: the timeline store's `setSelectedElements`
(the timeline store module is not among the analysed sources). -/
def setSelectedElements (st : TimelineState)
    (sel : List (String × String)) : TimelineState :=
  { st with selectedElements := sel }

/-- Modelled from the spec: the timeline's unified multi-element deletion
path `deleteSelected` (the timeline store module is not among the analysed
sources): it removes from each track exactly the elements whose
`(trackId, elementId)` pair is currently selected, and clears the
selection. -/
def deleteSelected (st : TimelineState) : TimelineState :=
  { tracks := st.tracks.map (fun track =>
      { track with elements := track.elements.filter (fun el =>
          !(decide ((track.id, el.id) ∈ st.selectedElements))) }),
    selectedElements := [] }

/-- The reference test of the cascade scan:
`el.type === "media" && el.mediaId === id`. -/
def referencesMedia (id : String) (el : TimelineElement) : Bool :=
  el.type == ElementType.media && el.mediaId == some id

/-- The media store's in-memory state. -/
structure MediaStoreState where
  mediaFiles : List MediaFile
  deriving Repr, DecidableEq

/-- The `(trackId, elementId)` pairs collected by `removeMediaFile`'s scan of
every track's every element. -/
def elementsToRemove (tracks : List TimelineTrack) (id : String) :
    List (String × String) :=
  tracks.flatMap (fun track =>
    (track.elements.filter (referencesMedia id)).map (fun el =>
      (track.id, el.id)))

/-- The observable steps of `removeMediaFile`, in execution order. -/
inductive MediaEvent
  | localRemove
  | cascadeDelete
  | remoteDeleteCall
  deriving Repr, DecidableEq

/-- `removeMediaFile` of the media store: (1) remove the asset from the local
media list immediately; (2) scan all tracks for elements referencing the
deleted media id and, if any exist, select them and run the unified deletion
path; (3) only then issue the remote deletion via
`storageService.deleteMediaFile`, whose failure is caught and logged — never
rethrown and never rolled back.  Returns the (always successful) result, the
media store, the timeline state, the media cache store, and the event log. -/
def removeMediaFile (deleteRemote : HttpResponse Unit) (ms : MediaStoreState)
    (tl : TimelineState) (mediaCache : KVStore (List MediaFileData))
    (projectId : String) (id : String) :
    Except String Unit × MediaStoreState × TimelineState ×
      KVStore (List MediaFileData) × List MediaEvent :=
  (match (StorageService.deleteMediaFile deleteRemote mediaCache projectId
      id).1 with
    | .error _ => .ok ()
    | .ok _ => .ok (),
   { mediaFiles := ms.mediaFiles.filter (fun media => media.id != id) },
   (if (elementsToRemove tl.tracks id).length > 0 then
      deleteSelected (setSelectedElements tl (elementsToRemove tl.tracks id))
    else tl),
   (StorageService.deleteMediaFile deleteRemote mediaCache projectId id).2,
   [MediaEvent.localRemove] ++
     (if (elementsToRemove tl.tracks id).length > 0 then
        [MediaEvent.cascadeDelete]
      else []) ++
     [MediaEvent.remoteDeleteCall])

lemma mem_elementsToRemove_of_ref {tracks : List TimelineTrack} {id : String}
    {track : TimelineTrack} {el : TimelineElement}
    (ht : track ∈ tracks) (he : el ∈ track.elements)
    (hr : referencesMedia id el = true) :
    (track.id, el.id) ∈ elementsToRemove tracks id := by
  unfold elementsToRemove
  rw [List.mem_flatMap]
  exact ⟨track, ht, List.mem_map_of_mem _ (List.mem_filter.mpr ⟨he, hr⟩)⟩

lemma ref_of_mem_elementsToRemove {tracks : List TimelineTrack} {id : String}
    {track : TimelineTrack} {el : TimelineElement}
    (hnodT : (tracks.map TimelineTrack.id).Nodup)
    (hnodE : ∀ t ∈ tracks, (t.elements.map TimelineElement.id).Nodup)
    (ht : track ∈ tracks) (he : el ∈ track.elements)
    (hmem : (track.id, el.id) ∈ elementsToRemove tracks id) :
    referencesMedia id el = true := by
  unfold elementsToRemove at hmem
  rw [List.mem_flatMap] at hmem
  obtain ⟨t', ht', hmem'⟩ := hmem
  rw [List.mem_map] at hmem'
  obtain ⟨el', hel', hpair⟩ := hmem'
  rw [List.mem_filter] at hel'
  have hid1 : t'.id = track.id := congrArg Prod.fst hpair
  have hid2 : el'.id = el.id := congrArg Prod.snd hpair
  have htEq : t' = track := List.inj_on_of_nodup_map hnodT ht' ht hid1
  subst htEq
  have helEq : el' = el :=
    List.inj_on_of_nodup_map (hnodE t' ht') hel'.1 he hid2
  subst helEq
  exact hel'.2

lemma elementsToRemove_nil_no_refs {tracks : List TimelineTrack} {id : String}
    (h : elementsToRemove tracks id = []) :
    ∀ track ∈ tracks, ∀ el ∈ track.elements, referencesMedia id el = false := by
  intro track ht el he
  by_contra hr
  have hr' : referencesMedia id el = true := by
    cases hh : referencesMedia id el
    · exact absurd hh hr
    · rfl
  have hmem := mem_elementsToRemove_of_ref ht he hr'
  rw [h] at hmem
  simp at hmem

lemma deleteSelected_elementsToRemove {tl : TimelineState} {id : String}
    (hnodT : (tl.tracks.map TimelineTrack.id).Nodup)
    (hnodE : ∀ t ∈ tl.tracks, (t.elements.map TimelineElement.id).Nodup) :
    (deleteSelected (setSelectedElements tl
        (elementsToRemove tl.tracks id))).tracks =
      tl.tracks.map (fun track =>
        { track with elements :=
            track.elements.filter (fun el => !(referencesMedia id el)) }) := by
  unfold deleteSelected setSelectedElements
  apply List.map_congr_left
  intro track ht
  have helems : track.elements.filter (fun el =>
      !(decide ((track.id, el.id) ∈ elementsToRemove tl.tracks id))) =
      track.elements.filter (fun el => !(referencesMedia id el)) := by
    apply List.filter_congr
    intro el he
    by_cases hr : referencesMedia id el = true
    · have hmem := mem_elementsToRemove_of_ref ht he hr
      simp [hr, hmem]
    · have hr' : referencesMedia id el = false := by
        cases hh : referencesMedia id el
        · rfl
        · exact absurd hh hr
      have hnmem : (track.id, el.id) ∉ elementsToRemove tl.tracks id :=
        fun hmem => hr (ref_of_mem_elementsToRemove hnodT hnodE ht he hmem)
      simp [hr', hnmem]
  rw [helems]

lemma removeMediaFile_no_refs (deleteRemote : HttpResponse Unit)
    (ms : MediaStoreState) (tl : TimelineState)
    (mediaCache : KVStore (List MediaFileData)) (projectId id : String) :
    ∀ track ∈ (removeMediaFile deleteRemote ms tl mediaCache projectId
        id).2.2.1.tracks,
      ∀ el ∈ track.elements, referencesMedia id el = false := by
  unfold removeMediaFile
  by_cases hlen : (elementsToRemove tl.tracks id).length > 0
  · simp only [if_pos hlen]
    intro track ht el he
    unfold deleteSelected setSelectedElements at ht
    simp only [List.mem_map] at ht
    obtain ⟨t0, ht0, rfl⟩ := ht
    simp only [List.mem_filter] at he
    obtain ⟨he0, hsel⟩ := he
    by_contra hr
    have hr' : referencesMedia id el = true := by
      cases hh : referencesMedia id el
      · exact absurd hh hr
      · rfl
    have hmem := mem_elementsToRemove_of_ref ht0 he0 hr'
    simp [hmem] at hsel
  · simp only [if_neg hlen]
    intro track ht el he
    have hnil : elementsToRemove tl.tracks id = [] := by
      cases h : elementsToRemove tl.tracks id with
      | nil => rfl
      | cons a t => rw [h] at hlen; simp at hlen
    exact elementsToRemove_nil_no_refs hnil track ht el he

/-- C2: on a well-formed in-memory timeline (no duplicate track ids, no
duplicate element ids within a track), the media store's `removeMediaFile`
deletes from the timeline exactly the elements referencing the deleted media
id: every track keeps precisely its non-referencing elements, in order, so N
referencing elements are removed and the K others are untouched regardless of
their distribution over tracks. -/
theorem removeMediaFile_cascade_exact (deleteRemote : HttpResponse Unit)
    (ms : MediaStoreState) (tl : TimelineState)
    (mediaCache : KVStore (List MediaFileData)) (projectId id : String)
    (hnodT : (tl.tracks.map TimelineTrack.id).Nodup)
    (hnodE : ∀ t ∈ tl.tracks, (t.elements.map TimelineElement.id).Nodup) :
    (removeMediaFile deleteRemote ms tl mediaCache projectId id).2.2.1.tracks =
      tl.tracks.map (fun track =>
        { track with elements :=
            track.elements.filter (fun el => !(referencesMedia id el)) }) := by
  unfold removeMediaFile
  by_cases hlen : (elementsToRemove tl.tracks id).length > 0
  · simp only [if_pos hlen]
    exact deleteSelected_elementsToRemove hnodT hnodE
  · simp only [if_neg hlen]
    have hnil : elementsToRemove tl.tracks id = [] := by
      cases h : elementsToRemove tl.tracks id with
      | nil => rfl
      | cons a t => rw [h] at hlen; simp at hlen
    have hrefs := elementsToRemove_nil_no_refs hnil
    have : ∀ track ∈ tl.tracks,
        ({ track with elements :=
            track.elements.filter (fun el => !(referencesMedia id el)) } :
          TimelineTrack) = track := by
      intro track ht
      have : track.elements.filter (fun el => !(referencesMedia id el)) =
          track.elements :=
        List.filter_eq_self.mpr (fun el he => by simp [hrefs track ht el he])
      rw [this]
    calc tl.tracks
        = tl.tracks.map (fun track => track) := by simp
      _ = tl.tracks.map (fun track =>
            { track with elements :=
                track.elements.filter (fun el => !(referencesMedia id el)) }) :=
          (List.map_congr_left this).symm

/-- A concrete timeline: two tracks, three elements referencing `"m1"` and
two elements that do not. -/
def sampleTimelineState : TimelineState :=
  { tracks :=
      [{ id := "t1",
         elements :=
           [{ id := "e1", type := ElementType.media, mediaId := some "m1" },
            { id := "e2", type := ElementType.text, mediaId := none },
            { id := "e3", type := ElementType.media, mediaId := some "m2" }] },
       { id := "t2",
         elements :=
           [{ id := "e4", type := ElementType.media, mediaId := some "m1" },
            { id := "e5", type := ElementType.media, mediaId := some "m1" }] }],
    selectedElements := [] }

/-- Witness for C2 on the concrete timeline: the three `"m1"` elements are
removed, the two others stay, per track and in order. -/
theorem removeMediaFile_cascade_exact_witness :
    (removeMediaFile { status := 500, statusText := "Internal Server Error", body := () }
      { mediaFiles := [] } sampleTimelineState (fun _ => none) "p"
      "m1").2.2.1.tracks =
      sampleTimelineState.tracks.map (fun track =>
        { track with elements :=
            track.elements.filter (fun el => !(referencesMedia "m1" el)) }) :=
  removeMediaFile_cascade_exact
    { status := 500, statusText := "Internal Server Error", body := () }
    { mediaFiles := [] } sampleTimelineState (fun _ => none) "p" "m1"
    (by decide) (by decide)

/-- C5: `removeMediaFile` performs the in-memory removal of the asset and the
cascade before the remote media deletion call is issued (the event log starts
with the local removal and ends with the remote call), and when the remote
call fails the operation still returns success (the error is caught, not
rethrown) and rolls nothing back: the final state keeps the asset and every
element referencing it removed, and the media cache is left untouched. -/
theorem removeMediaFile_optimistic (deleteRemote : HttpResponse Unit)
    (ms : MediaStoreState) (tl : TimelineState)
    (mediaCache : KVStore (List MediaFileData)) (projectId id : String)
    (hfail : deleteFails deleteRemote = true) :
    (removeMediaFile deleteRemote ms tl mediaCache projectId id).1 = .ok () ∧
    (removeMediaFile deleteRemote ms tl mediaCache projectId id).2.1.mediaFiles =
      ms.mediaFiles.filter (fun media => media.id != id) ∧
    (∀ track ∈ (removeMediaFile deleteRemote ms tl mediaCache projectId
        id).2.2.1.tracks,
      ∀ el ∈ track.elements, referencesMedia id el = false) ∧
    (removeMediaFile deleteRemote ms tl mediaCache projectId id).2.2.2.1 =
      mediaCache ∧
    (removeMediaFile deleteRemote ms tl mediaCache projectId
        id).2.2.2.2.getLast? = some MediaEvent.remoteDeleteCall ∧
    (removeMediaFile deleteRemote ms tl mediaCache projectId id).2.2.2.2.head? =
      some MediaEvent.localRemove := by
  refine ⟨?_, rfl, removeMediaFile_no_refs deleteRemote ms tl mediaCache
    projectId id, ?_, ?_, ?_⟩
  · unfold removeMediaFile StorageService.deleteMediaFile
    simp [hfail]
  · unfold removeMediaFile StorageService.deleteMediaFile
    simp [hfail]
  · unfold removeMediaFile
    exact List.getLast?_concat _
  · unfold removeMediaFile
    simp

/-- Witness for C5 on the concrete timeline, with a failing remote. -/
theorem removeMediaFile_optimistic_witness :
    (removeMediaFile { status := 500, statusText := "Internal Server Error", body := () }
      { mediaFiles := [{ id := "m1", name := "clip", url := "u1" },
                       { id := "m2", name := "other", url := "u2" }] }
      sampleTimelineState (fun _ => none) "p" "m1").1 = .ok () ∧
    (removeMediaFile { status := 500, statusText := "Internal Server Error", body := () }
      { mediaFiles := [{ id := "m1", name := "clip", url := "u1" },
                       { id := "m2", name := "other", url := "u2" }] }
      sampleTimelineState (fun _ => none) "p" "m1").2.1.mediaFiles =
      ([{ id := "m1", name := "clip", url := "u1" },
        { id := "m2", name := "other", url := "u2" }] : List MediaFile).filter
        (fun media => media.id != "m1") ∧
    (∀ track ∈ (removeMediaFile
        { status := 500, statusText := "Internal Server Error", body := () }
        { mediaFiles := [{ id := "m1", name := "clip", url := "u1" },
                         { id := "m2", name := "other", url := "u2" }] }
        sampleTimelineState (fun _ => none) "p" "m1").2.2.1.tracks,
      ∀ el ∈ track.elements, referencesMedia "m1" el = false) ∧
    (removeMediaFile { status := 500, statusText := "Internal Server Error", body := () }
      { mediaFiles := [{ id := "m1", name := "clip", url := "u1" },
                       { id := "m2", name := "other", url := "u2" }] }
      sampleTimelineState (fun _ => none) "p" "m1").2.2.2.2.getLast? =
      some MediaEvent.remoteDeleteCall ∧
    (removeMediaFile { status := 500, statusText := "Internal Server Error", body := () }
      { mediaFiles := [{ id := "m1", name := "clip", url := "u1" },
                       { id := "m2", name := "other", url := "u2" }] }
      sampleTimelineState (fun _ => none) "p" "m1").2.2.2.2.head? =
      some MediaEvent.localRemove := by
  have h := removeMediaFile_optimistic
    { status := 500, statusText := "Internal Server Error", body := () }
    { mediaFiles := [{ id := "m1", name := "clip", url := "u1" },
                     { id := "m2", name := "other", url := "u2" }] }
    sampleTimelineState (fun _ => none) "p" "m1" (by decide)
  exact ⟨h.1, h.2.1, h.2.2.1, h.2.2.2.2.1, h.2.2.2.2.2⟩

end OpenCut
